import Mathlib

/-!
Verification of the Market Data Stream Client of forlabsio/crypto-exchange
(src/frontend/stores/marketStore.ts, the reconnecting variant).

The store is shallowly embedded as a state machine: the zustand store fields
(Published State) together with the module-level globals (ws handle, throttle
clock, pending reconnect timer, desired pair, attempt counter) form one
record, and each transport/consumer event is a constructor of an event type
interpreted by a total step function.  WebSocket objects are identified by
generation numbers allocated from a counter; setTimeout handles likewise, so
clearTimeout semantics (a cleared timer never fires) is modelled by a fired
timer only taking effect when it is still the pending one.  Date.now() values
arrive as the timestamp carried by each message event.  A JavaScript
exception inside the onmessage try block is modelled by the Except error
branch carrying the state as already mutated at the throw point; the catch
clause keeps that state and only logs.
-/

namespace Market

/-- Ticker payload as parsed from JSON; every field may be absent in a frame
(the TypeScript interface Ticker in marketStore.ts lines 3-11). -/
structure TickerJ where
  pair : Option String
  last_price : Option String
  change_pct : Option String
  high : Option String
  low : Option String
  volume : Option String
  quote_volume : Option String
deriving DecidableEq

/-- Trade payload as parsed from JSON (interface Trade, lines 13-18). -/
structure TradeJ where
  price : Option String
  qty : Option String
  time : Option Int
  is_buyer_maker : Option Bool
deriving DecidableEq

/-- Kline payload as parsed from JSON (interface Kline, lines 20-28). -/
structure KlineJ where
  time : Option Int
  kopen : Option Int
  khigh : Option Int
  klow : Option Int
  kclose : Option Int
  volume : Option Int
  is_closed : Option Bool
deriving DecidableEq

/-- Orderbook payload of a frame: bids/asks arrays, possibly absent. -/
structure BookJ where
  bids : Option (List (List String))
  asks : Option (List (List String))
deriving DecidableEq

/-- The stored order book: the store field orderbook, never absent. -/
structure StoredBook where
  bids : List (List String)
  asks : List (List String)
deriving DecidableEq

/-- The stored latestKline record, built as interval plus kline payload
(marketStore.ts line 155). -/
structure KlineRec where
  interval : Option String
  kline : KlineJ
deriving DecidableEq

/-- Published State: the externally observable zustand store fields
(marketStore.ts lines 30-38, initial values lines 48-52). -/
structure PubState where
  ticker : Option TickerJ
  orderbook : StoredBook
  trades : List TradeJ
  latestKline : Option KlineRec
  connected : Bool
deriving DecidableEq

/-- A pending reconnect timer: its setTimeout handle identity and the delay
it was armed with. -/
structure PendingTimer where
  id : Nat
  delay : Nat
deriving DecidableEq

/-- Whole client state: Published State plus the module-level globals of
marketStore.ts lines 40-44 (ws, lastOrderbookMs, reconnectTimer, currentPair,
reconnectAttempts), plus two allocation counters giving fresh identities to
WebSocket objects and setTimeout handles. -/
structure ClientState where
  pub : PubState
  ws : Option Nat
  lastOrderbookMs : Nat
  reconnectTimer : Option PendingTimer
  currentPair : Option String
  reconnectAttempts : Nat
  nextWsId : Nat
  nextTimerId : Nat
deriving DecidableEq

/-- Initial state: empty store fields, no connection, no timer. -/
def initState : ClientState :=
  { pub := { ticker := none
             orderbook := { bids := [], asks := [] }
             trades := []
             latestKline := none
             connected := false }
    ws := none
    lastOrderbookMs := 0
    reconnectTimer := none
    currentPair := none
    reconnectAttempts := 0
    nextWsId := 0
    nextTimerId := 0 }

/-- An inbound frame: either text that JSON.parse rejects, or a parsed JSON
object carrying whichever of the fields the handler reads are present. -/
inductive Frame where
  | invalid : Frame
  | parsed (ty : String) (tk : Option TickerJ) (ob : Option BookJ)
      (tr : Option TradeJ) (trs : Option (List TradeJ))
      (itv : Option String) (kl : Option KlineJ) : Frame
deriving DecidableEq

/-- Events interpreted by the step function: the two consumer calls, the four
transport callbacks of a WebSocket identified by generation number (message
events carry the Date.now() value observed while handling), and the firing of
a setTimeout handle. -/
inductive Event where
  | connect (pair : String) : Event
  | disconnect : Event
  | wsOpen (sid : Nat) : Event
  | wsClose (sid : Nat) : Event
  | wsError (sid : Nat) : Event
  | wsMessage (sid : Nat) (now : Nat) (f : Frame) : Event
  | timerFire (tid : Nat) : Event
deriving DecidableEq

/-- JavaScript truthiness of data.ticker and data.ticker.last_price: the
ticker object is present and its last_price is a present, non-empty string
(marketStore.ts lines 125 and 132). -/
def tickerTruthy (tk : Option TickerJ) : Bool :=
  match tk with
  | none => false
  | some t =>
    match t.last_price with
    | none => false
    | some s => s != ""

/-- JavaScript truthiness of the currentPair global: both null and the
empty string are falsy, so the checks on marketStore.ts lines 100 and 108
bail for either. -/
def pairTruthy : Option String → Bool
  | none => false
  | some p => p != ""

def MAX_RECONNECT_DELAY : Nat := 30000

/-- Body of the try block of onmessage (marketStore.ts lines 118-156), acting
on Published State and the throttle clock.  The error branch models a thrown
exception and carries the state as mutated up to the throw point; the only
throw point is spreading a missing bids/asks array in the orderbook branch,
which happens after lastOrderbookMs was already advanced. -/
def tryHandle (now : Nat) (ty : String) (tk : Option TickerJ)
    (ob : Option BookJ) (tr : Option TradeJ) (trs : Option (List TradeJ))
    (itv : Option String) (kl : Option KlineJ) (pub : PubState)
    (lastMs : Nat) : Except (PubState × Nat) (PubState × Nat) :=
  if ty = "snapshot" then
    .ok ({ pub with
            ticker := if tickerTruthy tk then tk else none
            orderbook := { bids := (ob.bind BookJ.bids).getD []
                           asks := (ob.bind BookJ.asks).getD [] }
            trades := trs.getD [] }, now)
  else if ty = "ticker" then
    if tickerTruthy tk then .ok ({ pub with ticker := tk }, lastMs)
    else .ok (pub, lastMs)
  else if ty = "orderbook" then
    match ob with
    | some b =>
      if lastMs + 50 ≤ now then
        match b.bids, b.asks with
        | some bs, some aks =>
          .ok ({ pub with orderbook := { bids := bs, asks := aks } }, now)
        | _, _ => .error (pub, now)
      else .ok (pub, lastMs)
    | none => .ok (pub, lastMs)
  else if ty = "trade" then
    match tr with
    | some t => .ok ({ pub with trades := (t :: pub.trades).take 50 }, lastMs)
    | none => .ok (pub, lastMs)
  else if ty = "kline" then
    match kl with
    | some k =>
      .ok ({ pub with latestKline := some { interval := itv, kline := k } },
        lastMs)
    | none => .ok (pub, lastMs)
  else .ok (pub, lastMs)

/-- Full onmessage body after the stale-session guard: JSON.parse, the try
block, and the catch clause that only logs (marketStore.ts lines 117-159). -/
def handleMessage (now : Nat) (f : Frame) (pub : PubState) (lastMs : Nat) :
    PubState × Nat :=
  match f with
  | .invalid => (pub, lastMs)
  | .parsed ty tk ob tr trs itv kl =>
    match tryHandle now ty tk ob tr trs itv kl pub lastMs with
    | .ok r => r
    | .error r => r

/-- The connect body (marketStore.ts lines 54-73): clear a pending timer,
close and drop any existing socket, record the desired pair, allocate a fresh
WebSocket.  It does not touch reconnectAttempts nor Published State. -/
def connectImpl (p : String) (s : ClientState) : ClientState :=
  { s with reconnectTimer := none
           currentPair := some p
           ws := some s.nextWsId
           nextWsId := s.nextWsId + 1 }

/-- The disconnect body (marketStore.ts lines 163-179). -/
def disconnectImpl (s : ClientState) : ClientState :=
  { s with currentPair := none
           reconnectAttempts := 0
           reconnectTimer := none
           ws := none
           pub := { s.pub with connected := false, latestKline := none } }

/-- scheduleReconnect (marketStore.ts lines 99-114): bail out when the
desired pair is falsy (null or the empty string, line 100), otherwise
increment the attempt counter and arm a timer with delay
min(1000 * 2 ^ (attempt - 1), 30000). -/
def scheduleReconnect (s : ClientState) : ClientState :=
  if pairTruthy s.currentPair then
    let a := s.reconnectAttempts + 1
    { s with reconnectAttempts := a
             reconnectTimer :=
               some { id := s.nextTimerId
                      delay := min (1000 * 2 ^ (a - 1)) MAX_RECONNECT_DELAY }
             nextTimerId := s.nextTimerId + 1 }
  else s

/-- One serialized event of the single-threaded event loop.  Transport
callbacks for socket sid take effect only behind the identity guard
ws = some sid, except that onopen resets the attempt counter before its guard
(marketStore.ts line 78).  A timer only fires while it is still the pending
one (clearTimeout semantics); its callback re-reads currentPair and connects
to it when it is truthy, i.e. neither null nor the empty string
(lines 107-113). -/
def step (e : Event) (s : ClientState) : ClientState :=
  match e with
  | .connect p => connectImpl p s
  | .disconnect => disconnectImpl s
  | .wsOpen sid =>
    let s1 := { s with reconnectAttempts := 0 }
    if s1.ws = some sid then { s1 with pub := { s1.pub with connected := true } }
    else s1
  | .wsClose sid =>
    if s.ws = some sid then
      scheduleReconnect { s with pub := { s.pub with connected := false } }
    else s
  | .wsError sid =>
    if s.ws = some sid then { s with pub := { s.pub with connected := false } }
    else s
  | .wsMessage sid now f =>
    if s.ws = some sid then
      let r := handleMessage now f s.pub s.lastOrderbookMs
      { s with pub := r.1, lastOrderbookMs := r.2 }
    else s
  | .timerFire tid =>
    match s.reconnectTimer with
    | some t =>
      if t.id = tid then
        let s1 := { s with reconnectTimer := none }
        match s1.currentPair with
        | some p => if p = "" then s1 else connectImpl p s1
        | none => s1
      else s
    | none => s

/-- Run a list of events left to right. -/
def run : List Event → ClientState → ClientState
  | [], s => s
  | e :: evs, s => run evs (step e s)

/-- Whether an event is a consumer connect call. -/
def Event.isConnect : Event → Bool
  | .connect _ => true
  | _ => false

/-- The delay of the pending reconnect timer, when one is armed. -/
def delayOf (s : ClientState) : Option Nat :=
  s.reconnectTimer.map PendingTimer.delay

/-- Deliver an abnormal close of the current socket (no-op when none). -/
def crashOnce (s : ClientState) : ClientState :=
  match s.ws with
  | some sid => step (.wsClose sid) s
  | none => s

/-- Fire the pending reconnect timer (no-op when none is armed). -/
def fireOnce (s : ClientState) : ClientState :=
  match s.reconnectTimer with
  | some t => step (.timerFire t.id) s
  | none => s

/-- A run of n consecutive abnormal closes of the current session with the
armed reconnect timer firing between them and no successful open, disconnect
or consumer connect in between: close, fire, close, fire, ..., close. -/
def crashRun : Nat → ClientState → ClientState
  | 0, s => s
  | n + 1, s => crashOnce (fireOnce (crashRun n s))

/-- An event whose snapshot payload, if any, carries at most 50 trades. -/
def snapshotBounded : Event → Bool
  | .wsMessage _ _ (.parsed ty _ _ _ trs _ _) =>
    !(ty == "snapshot") || (trs.getD []).length ≤ 50
  | _ => true

/-- The message types the handler recognizes. -/
def recognizedType (ty : String) : Bool :=
  ty == "snapshot" || ty == "ticker" || ty == "orderbook" || ty == "trade"
    || ty == "kline"

/-- The frame class of the malformed-payload claim: text JSON.parse rejects,
a parsed object with an unrecognized type, or one lacking the field the
handler expects for its type (per the wire format: ticker for a ticker
frame, orderbook with its bids and asks arrays for an orderbook frame, trade
for a trade frame, kline for a kline frame). -/
def badFrame : Frame → Bool
  | .invalid => true
  | .parsed ty tk ob tr _ _ kl =>
    if ty == "ticker" then tk.isNone
    else if ty == "orderbook" then
      match ob with
      | none => true
      | some b => b.bids.isNone || b.asks.isNone
    else if ty == "trade" then tr.isNone
    else if ty == "kline" then kl.isNone
    else !recognizedType ty

/-- The stored book an applied orderbook frame produces. -/
def bookOf (b : BookJ) : StoredBook :=
  { bids := b.bids.getD [], asks := b.asks.getD [] }

/-- A pure orderbook frame carrying book b. -/
def obFrame (b : BookJ) : Frame :=
  .parsed "orderbook" none (some b) none none none none

/-- Identity k is dead: every socket id the client may still consider current
is strictly larger, and the allocator has moved past k. -/
def Fresh (k : Nat) (s : ClientState) : Prop :=
  k < s.nextWsId ∧ ∀ sid, s.ws = some sid → k < sid

/-- A fully torn-down client: no socket, no pending timer, no desired pair.
This is the shape disconnect leaves behind. -/
def Dead (s : ClientState) : Prop :=
  s.ws = none ∧ s.reconnectTimer = none ∧ s.currentPair = none

/-- A sample trade payload for concrete runs. -/
def exTrade : TradeJ :=
  { price := some "100.5", qty := some "2", time := some 1700000000
    is_buyer_maker := some false }

/-- A sample kline payload for concrete runs. -/
def exKline : KlineJ :=
  { time := some 60, kopen := some 10, khigh := some 12, klow := some 9
    kclose := some 11, volume := some 5, is_closed := some true }

/-- A kline frame carrying exKline. -/
def exKlineFrame : Frame :=
  .parsed "kline" none none none none (some "1m") (some exKline)

/-- A snapshot frame carrying 51 trades and nothing else. -/
def snapFrame51 : Frame :=
  .parsed "snapshot" none none none (some (List.replicate 51 exTrade))
    none none

/-- State after connect("A"): socket 0 pending, no timer, zero attempts. -/
def stateA : ClientState := run [Event.connect "A"] initState

/-- State after connect("A"), connect("B"): socket 0 superseded by 1. -/
def stateAB : ClientState :=
  run [Event.connect "A", Event.connect "B"] initState

/-- State after connect("A") and a successful open of socket 0. -/
def stateOpenA : ClientState :=
  run [Event.connect "A", Event.wsOpen 0] initState

/-- State after connect("A") and an abnormal close of socket 0: a reconnect
timer is pending with attempt counter 1. -/
def stateCrashA : ClientState :=
  run [Event.connect "A", Event.wsClose 0] initState

/-- State after connect("A"), open, and a kline message: latestKline set. -/
def stateKline : ClientState :=
  run [Event.connect "A", Event.wsOpen 0, Event.wsMessage 0 5 exKlineFrame]
    initState

/- Helper lemmas -/

lemma nextWsId_step_mono (e : Event) (s : ClientState) :
    s.nextWsId ≤ (step e s).nextWsId := by
  cases e with
  | connect p => exact Nat.le_succ _
  | disconnect => exact Nat.le_refl _
  | wsOpen sid =>
    simp only [step]
    split
    · exact Nat.le_refl _
    · exact Nat.le_refl _
  | wsClose sid =>
    simp only [step, scheduleReconnect]
    split
    · split
      · exact Nat.le_refl _
      · exact Nat.le_refl _
    · exact Nat.le_refl _
  | wsError sid =>
    simp only [step]
    split
    · exact Nat.le_refl _
    · exact Nat.le_refl _
  | wsMessage sid now f =>
    simp only [step]
    split
    · exact Nat.le_refl _
    · exact Nat.le_refl _
  | timerFire tid =>
    simp only [step]
    split
    · split
      · split
        · split
          · exact Nat.le_refl _
          · exact Nat.le_succ _
        · exact Nat.le_refl _
      · exact Nat.le_refl _
    · exact Nat.le_refl _

lemma nextWsId_run_mono (evs : List Event) (s : ClientState) :
    s.nextWsId ≤ (run evs s).nextWsId := by
  induction evs generalizing s with
  | nil => exact Nat.le_refl _
  | cons e evs ih =>
    exact Nat.le_trans (nextWsId_step_mono e s) (ih (step e s))

lemma fresh_mk (k : Nat) (s t : ClientState) (h : Fresh k s)
    (hws : t.ws = s.ws) (hnx : t.nextWsId = s.nextWsId) : Fresh k t := by
  refine ⟨?_, ?_⟩
  · rw [hnx]; exact h.1
  · intro sid hsid
    exact h.2 sid (by rw [← hws]; exact hsid)

lemma fresh_connectImpl (k : Nat) (p : String) (s : ClientState)
    (h1 : k < s.nextWsId) : Fresh k (connectImpl p s) := by
  refine ⟨?_, ?_⟩
  · show k < s.nextWsId + 1
    omega
  · intro sid hsid
    have hs : some s.nextWsId = some sid := hsid
    simp only [Option.some.injEq] at hs
    omega

lemma fresh_step (k : Nat) (e : Event) (s : ClientState) (h : Fresh k s) :
    Fresh k (step e s) := by
  cases e with
  | connect p => exact fresh_connectImpl k p s h.1
  | disconnect =>
    refine ⟨h.1, ?_⟩
    intro sid hsid
    exact Option.noConfusion hsid
  | wsOpen sid =>
    simp only [step]
    split
    · exact fresh_mk k s _ h rfl rfl
    · exact fresh_mk k s _ h rfl rfl
  | wsClose sid =>
    simp only [step, scheduleReconnect]
    split
    · split
      · exact fresh_mk k s _ h rfl rfl
      · exact fresh_mk k s _ h rfl rfl
    · exact fresh_mk k s _ h rfl rfl
  | wsError sid =>
    simp only [step]
    split
    · exact fresh_mk k s _ h rfl rfl
    · exact fresh_mk k s _ h rfl rfl
  | wsMessage sid now f =>
    simp only [step]
    split
    · exact fresh_mk k s _ h rfl rfl
    · exact fresh_mk k s _ h rfl rfl
  | timerFire tid =>
    simp only [step]
    split
    · split
      · split
        · split
          · exact fresh_mk k s _ h rfl rfl
          · exact fresh_connectImpl k _ _ h.1
        · exact fresh_mk k s _ h rfl rfl
      · exact fresh_mk k s _ h rfl rfl
    · exact fresh_mk k s _ h rfl rfl

lemma fresh_run (k : Nat) (evs : List Event) (s : ClientState)
    (h : Fresh k s) : Fresh k (run evs s) := by
  induction evs generalizing s with
  | nil => exact h
  | cons e evs ih => exact ih (step e s) (fresh_step k e s h)

lemma stale_message_noop (s : ClientState) (sid now : Nat) (f : Frame)
    (h : s.ws ≠ some sid) : step (.wsMessage sid now f) s = s := by
  simp only [step, if_neg h]

lemma handleMessage_snapshot (now : Nat) (tk : Option TickerJ)
    (ob : Option BookJ) (tr : Option TradeJ) (trs : Option (List TradeJ))
    (itv : Option String) (kl : Option KlineJ) (pub : PubState)
    (lastMs : Nat) :
    handleMessage now (.parsed "snapshot" tk ob tr trs itv kl) pub lastMs
      = ({ pub with
            ticker := if tickerTruthy tk then tk else none
            orderbook := { bids := (ob.bind BookJ.bids).getD []
                           asks := (ob.bind BookJ.asks).getD [] }
            trades := trs.getD [] }, now) := by
  simp [handleMessage, tryHandle]

lemma handleMessage_ticker (now : Nat) (tk : Option TickerJ)
    (ob : Option BookJ) (tr : Option TradeJ) (trs : Option (List TradeJ))
    (itv : Option String) (kl : Option KlineJ) (pub : PubState)
    (lastMs : Nat) :
    handleMessage now (.parsed "ticker" tk ob tr trs itv kl) pub lastMs
      = if tickerTruthy tk then ({ pub with ticker := tk }, lastMs)
        else (pub, lastMs) := by
  by_cases h : tickerTruthy tk <;> simp [handleMessage, tryHandle, h]

lemma handleMessage_orderbook (now : Nat) (tk : Option TickerJ) (b : BookJ)
    (tr : Option TradeJ) (trs : Option (List TradeJ)) (itv : Option String)
    (kl : Option KlineJ) (pub : PubState) (lastMs : Nat) :
    handleMessage now (.parsed "orderbook" tk (some b) tr trs itv kl) pub
        lastMs
      = if lastMs + 50 ≤ now then
          match b.bids, b.asks with
          | some bs, some aks =>
            ({ pub with orderbook := { bids := bs, asks := aks } }, now)
          | _, _ => (pub, now)
        else (pub, lastMs) := by
  by_cases h : lastMs + 50 ≤ now
  · cases hb : b.bids <;> cases ha : b.asks <;>
      simp [handleMessage, tryHandle, h, hb, ha]
  · simp [handleMessage, tryHandle, h]

lemma handleMessage_orderbook_missing (now : Nat) (tk : Option TickerJ)
    (tr : Option TradeJ) (trs : Option (List TradeJ)) (itv : Option String)
    (kl : Option KlineJ) (pub : PubState) (lastMs : Nat) :
    handleMessage now (.parsed "orderbook" tk none tr trs itv kl) pub lastMs
      = (pub, lastMs) := by
  simp [handleMessage, tryHandle]

lemma handleMessage_trade (now : Nat) (tk : Option TickerJ)
    (ob : Option BookJ) (t : TradeJ) (trs : Option (List TradeJ))
    (itv : Option String) (kl : Option KlineJ) (pub : PubState)
    (lastMs : Nat) :
    handleMessage now (.parsed "trade" tk ob (some t) trs itv kl) pub lastMs
      = ({ pub with trades := (t :: pub.trades).take 50 }, lastMs) := by
  simp [handleMessage, tryHandle]

lemma handleMessage_trade_missing (now : Nat) (tk : Option TickerJ)
    (ob : Option BookJ) (trs : Option (List TradeJ)) (itv : Option String)
    (kl : Option KlineJ) (pub : PubState) (lastMs : Nat) :
    handleMessage now (.parsed "trade" tk ob none trs itv kl) pub lastMs
      = (pub, lastMs) := by
  simp [handleMessage, tryHandle]

lemma handleMessage_kline (now : Nat) (tk : Option TickerJ)
    (ob : Option BookJ) (tr : Option TradeJ) (trs : Option (List TradeJ))
    (itv : Option String) (k : KlineJ) (pub : PubState) (lastMs : Nat) :
    handleMessage now (.parsed "kline" tk ob tr trs itv (some k)) pub lastMs
      = ({ pub with latestKline := some { interval := itv, kline := k } },
          lastMs) := by
  simp [handleMessage, tryHandle]

lemma handleMessage_kline_missing (now : Nat) (tk : Option TickerJ)
    (ob : Option BookJ) (tr : Option TradeJ) (trs : Option (List TradeJ))
    (itv : Option String) (pub : PubState) (lastMs : Nat) :
    handleMessage now (.parsed "kline" tk ob tr trs itv none) pub lastMs
      = (pub, lastMs) := by
  simp [handleMessage, tryHandle]

lemma handleMessage_other (now : Nat) (ty : String) (tk : Option TickerJ)
    (ob : Option BookJ) (tr : Option TradeJ) (trs : Option (List TradeJ))
    (itv : Option String) (kl : Option KlineJ) (pub : PubState)
    (lastMs : Nat) (h : recognizedType ty = false) :
    handleMessage now (.parsed ty tk ob tr trs itv kl) pub lastMs
      = (pub, lastMs) := by
  simp only [recognizedType, Bool.or_eq_false_iff, beq_eq_false_iff_ne,
    ne_eq] at h
  obtain ⟨⟨⟨⟨h1, h2⟩, h3⟩, h4⟩, h5⟩ := h
  simp [handleMessage, tryHandle, h1, h2, h3, h4, h5]

lemma dead_step (e : Event) (s : ClientState) (he : e.isConnect = false)
    (hd : Dead s) : Dead (step e s) ∧ (step e s).nextWsId = s.nextWsId := by
  obtain ⟨hw, ht, hp⟩ := hd
  cases e with
  | connect p => simp [Event.isConnect] at he
  | disconnect => exact ⟨⟨rfl, rfl, rfl⟩, rfl⟩
  | wsOpen sid =>
    have hni : ({ s with reconnectAttempts := 0 } : ClientState).ws
        ≠ some sid := by
      show s.ws ≠ some sid
      rw [hw]
      simp
    simp only [step, if_neg hni]
    refine ⟨⟨hw, ht, hp⟩, ?_⟩
    trivial
  | wsClose sid =>
    have hni : s.ws ≠ some sid := by rw [hw]; simp
    simp only [step, if_neg hni]
    refine ⟨⟨hw, ht, hp⟩, ?_⟩
    trivial
  | wsError sid =>
    have hni : s.ws ≠ some sid := by rw [hw]; simp
    simp only [step, if_neg hni]
    refine ⟨⟨hw, ht, hp⟩, ?_⟩
    trivial
  | wsMessage sid now f =>
    have hni : s.ws ≠ some sid := by rw [hw]; simp
    rw [stale_message_noop s sid now f hni]
    exact ⟨⟨hw, ht, hp⟩, rfl⟩
  | timerFire tid =>
    simp only [step, ht]
    refine ⟨⟨hw, ht, hp⟩, ?_⟩
    trivial

lemma dead_run (evs : List Event) :
    ∀ s : ClientState, (∀ e ∈ evs, e.isConnect = false) → Dead s →
      Dead (run evs s) ∧ (run evs s).nextWsId = s.nextWsId := by
  induction evs with
  | nil => intro s _ hd; exact ⟨hd, rfl⟩
  | cons e evs ih =>
    intro s h hd
    have he := h e (List.mem_cons_self e evs)
    have hrest : ∀ x ∈ evs, x.isConnect = false :=
      fun x hx => h x (List.mem_cons_of_mem e hx)
    obtain ⟨hd1, hn1⟩ := dead_step e s he hd
    obtain ⟨hd2, hn2⟩ := ih (step e s) hrest hd1
    exact ⟨hd2, by rw [run, hn2, hn1]⟩

lemma wsClose_current (s : ClientState) (sid : Nat) (p : String)
    (hw : s.ws = some sid) (hp : s.currentPair = some p) (hpt : p ≠ "") :
    step (.wsClose sid) s
      = { s with pub := { s.pub with connected := false }
                 reconnectAttempts := s.reconnectAttempts + 1
                 reconnectTimer :=
                   some { id := s.nextTimerId
                          delay := min (1000 * 2 ^ s.reconnectAttempts)
                            MAX_RECONNECT_DELAY }
                 nextTimerId := s.nextTimerId + 1 } := by
  obtain ⟨pub, ws, lastMs, rt, cp, ra, nw, nt⟩ := s
  dsimp only at hw hp ⊢
  subst hw
  subst hp
  simp [step, scheduleReconnect, pairTruthy, hpt]

lemma timerFire_pending (s : ClientState) (t : PendingTimer) (p : String)
    (ht : s.reconnectTimer = some t) (hp : s.currentPair = some p)
    (hpt : p ≠ "") :
    step (.timerFire t.id) s
      = connectImpl p { s with reconnectTimer := none } := by
  obtain ⟨pub, ws, lastMs, rt, cp, ra, nw, nt⟩ := s
  dsimp only at ht hp ⊢
  subst ht
  subst hp
  simp [step, connectImpl, hpt]

lemma crashOnce_spec (s : ClientState) (sid : Nat) (p : String)
    (hw : s.ws = some sid) (hp : s.currentPair = some p) (hpt : p ≠ "") :
    crashOnce s
      = { s with pub := { s.pub with connected := false }
                 reconnectAttempts := s.reconnectAttempts + 1
                 reconnectTimer :=
                   some { id := s.nextTimerId
                          delay := min (1000 * 2 ^ s.reconnectAttempts)
                            MAX_RECONNECT_DELAY }
                 nextTimerId := s.nextTimerId + 1 } := by
  rw [show crashOnce s = step (.wsClose sid) s by simp only [crashOnce, hw]]
  exact wsClose_current s sid p hw hp hpt

lemma fireOnce_spec (s : ClientState) (t : PendingTimer) (p : String)
    (ht : s.reconnectTimer = some t) (hp : s.currentPair = some p)
    (hpt : p ≠ "") :
    fireOnce s = connectImpl p { s with reconnectTimer := none } := by
  rw [show fireOnce s = step (.timerFire t.id) s by simp only [fireOnce, ht]]
  exact timerFire_pending s t p ht hp hpt

lemma fireOnce_id (s : ClientState) (ht : s.reconnectTimer = none) :
    fireOnce s = s := by
  simp only [fireOnce, ht]

lemma crashRun_spec (s : ClientState) (sid : Nat) (p : String)
    (hw : s.ws = some sid) (hp : s.currentPair = some p) (hpt : p ≠ "")
    (ht : s.reconnectTimer = none) :
    ∀ n : Nat, 1 ≤ n →
      (crashRun n s).reconnectAttempts = s.reconnectAttempts + n
      ∧ (∃ sid2, (crashRun n s).ws = some sid2)
      ∧ (crashRun n s).currentPair = some p
      ∧ ∃ tid, (crashRun n s).reconnectTimer =
          some { id := tid
                 delay := min (1000 * 2 ^ (s.reconnectAttempts + n - 1))
                   MAX_RECONNECT_DELAY } := by
  intro n
  induction n with
  | zero => intro h; omega
  | succ m ih =>
    intro _
    by_cases hm : m = 0
    · subst hm
      have h0 : crashRun 1 s = crashOnce s := by
        simp only [crashRun, fireOnce_id s ht]
      rw [h0, crashOnce_spec s sid p hw hp hpt]
      refine ⟨rfl, ⟨sid, hw⟩, hp, ⟨s.nextTimerId, ?_⟩⟩
      simp
    · have hm1 : 1 ≤ m := Nat.one_le_iff_ne_zero.mpr hm
      obtain ⟨ha, ⟨sid2, hws2⟩, hp2, ⟨tid2, ht2⟩⟩ := ih hm1
      set u := crashRun m s with hu
      have hfire : fireOnce u
          = connectImpl p { u with reconnectTimer := none } :=
        fireOnce_spec u _ p ht2 hp2 hpt
      have hstep : crashRun (m + 1) s
          = crashOnce (connectImpl p { u with reconnectTimer := none }) := by
        simp only [crashRun, ← hu, hfire]
      set v := connectImpl p { u with reconnectTimer := none } with hv
      have hvw : v.ws = some u.nextWsId := rfl
      have hvp : v.currentPair = some p := rfl
      have hva : v.reconnectAttempts = s.reconnectAttempts + m := ha
      rw [hstep, crashOnce_spec v u.nextWsId p hvw hvp hpt]
      refine ⟨?_, ⟨u.nextWsId, hvw⟩, hvp, ⟨v.nextTimerId, ?_⟩⟩
      · show v.reconnectAttempts + 1 = s.reconnectAttempts + (m + 1)
        rw [hva]
        omega
      rw [hva]
      have harith : s.reconnectAttempts + (m + 1) - 1
          = s.reconnectAttempts + m := by omega
      rw [harith]

lemma handleMessage_trades_len (now : Nat) (f : Frame) (pub : PubState)
    (lastMs : Nat)
    (hb : ∀ ty tk ob tr trs itv kl, f = Frame.parsed ty tk ob tr trs itv kl →
      ty = "snapshot" → (trs.getD []).length ≤ 50)
    (hs : pub.trades.length ≤ 50) :
    (handleMessage now f pub lastMs).1.trades.length ≤ 50 := by
  rcases f with _ | ⟨ty, tk, ob, tr, trs, itv, kl⟩
  · exact hs
  · by_cases h1 : ty = "snapshot"
    · subst h1
      rw [handleMessage_snapshot]
      exact hb _ _ _ _ _ _ _ rfl rfl
    · by_cases h2 : ty = "ticker"
      · subst h2
        rw [handleMessage_ticker]
        split
        · exact hs
        · exact hs
      · by_cases h3 : ty = "orderbook"
        · subst h3
          rcases ob with _ | b
          · rw [handleMessage_orderbook_missing]
            exact hs
          · rw [handleMessage_orderbook]
            split
            · split
              · exact hs
              · exact hs
            · exact hs
        · by_cases h4 : ty = "trade"
          · subst h4
            rcases tr with _ | t
            · rw [handleMessage_trade_missing]
              exact hs
            · rw [handleMessage_trade]
              show ((t :: pub.trades).take 50).length ≤ 50
              rw [List.length_take]
              exact Nat.min_le_left _ _
          · by_cases h5 : ty = "kline"
            · subst h5
              rcases kl with _ | k
              · rw [handleMessage_kline_missing]
                exact hs
              · rw [handleMessage_kline]
                exact hs
            · rw [handleMessage_other]
              · exact hs
              · simp [recognizedType, beq_eq_false_iff_ne, h1, h2, h3, h4, h5]

lemma trades_len_step (e : Event) (s : ClientState)
    (he : snapshotBounded e = true) (hs : s.pub.trades.length ≤ 50) :
    (step e s).pub.trades.length ≤ 50 := by
  cases e with
  | connect p => exact hs
  | disconnect => exact hs
  | wsOpen sid =>
    simp only [step]
    split
    · exact hs
    · exact hs
  | wsClose sid =>
    simp only [step, scheduleReconnect]
    split
    · split
      · exact hs
      · exact hs
    · exact hs
  | wsError sid =>
    simp only [step]
    split
    · exact hs
    · exact hs
  | timerFire tid =>
    simp only [step]
    split
    · split
      · split
        · split
          · exact hs
          · exact hs
        · exact hs
      · exact hs
    · exact hs
  | wsMessage sid now f =>
    simp only [step]
    split
    · refine handleMessage_trades_len now f s.pub s.lastOrderbookMs ?_ hs
      intro ty tk ob tr trs itv kl hf hty
      subst hf
      subst hty
      simp only [snapshotBounded] at he
      simpa using he
    · exact hs

lemma orderbook_msg_applied (s : ClientState) (sid : Nat)
    (hws : s.ws = some sid) (t : Nat) (b : BookJ)
    (bs aks : List (List String)) (hbb : b.bids = some bs)
    (hba : b.asks = some aks) (hge : s.lastOrderbookMs + 50 ≤ t) :
    step (.wsMessage sid t (obFrame b)) s
      = { s with
            pub := { s.pub with orderbook := { bids := bs, asks := aks } }
            lastOrderbookMs := t } := by
  simp only [step, if_pos hws, obFrame]
  rw [handleMessage_orderbook, if_pos hge, hbb, hba]

lemma orderbook_msg_throttled (s : ClientState) (sid : Nat)
    (hws : s.ws = some sid) (t : Nat) (b : BookJ)
    (hlt : ¬ (s.lastOrderbookMs + 50 ≤ t)) :
    step (.wsMessage sid t (obFrame b)) s = s := by
  simp only [step, if_pos hws, obFrame]
  rw [handleMessage_orderbook, if_neg hlt]

/- Claim theorems -/

/-- C1: Session exclusivity: for every sequence connect(p1), connect(p2),
a message event delivered on the socket opened for p1 (generation
s0.nextWsId) at any point after connect(p2) leaves the whole client state,
and in particular Published State (ticker, orderbook, trades, latestKline,
connected), unchanged: messages attributed to a superseded session are
discarded unconditionally by the identity guard. -/
theorem session_exclusivity (s0 : ClientState) (p1 p2 : String)
    (evs1 evs2 : List Event) (now : Nat) (f : Frame) :
    step (.wsMessage s0.nextWsId now f)
        (run evs2 (step (.connect p2) (run evs1 (step (.connect p1) s0))))
      = run evs2 (step (.connect p2) (run evs1 (step (.connect p1) s0))) := by
  have hmono : s0.nextWsId + 1
      ≤ (run evs1 (step (.connect p1) s0)).nextWsId := by
    have h1 : (step (.connect p1) s0).nextWsId = s0.nextWsId + 1 := rfl
    have h2 := nextWsId_run_mono evs1 (step (.connect p1) s0)
    omega
  have hfresh : Fresh s0.nextWsId
      (step (.connect p2) (run evs1 (step (.connect p1) s0))) := by
    refine ⟨?_, ?_⟩
    · show s0.nextWsId < (run evs1 (step (.connect p1) s0)).nextWsId + 1
      omega
    · intro sid hsid
      have h3 : some (run evs1 (step (.connect p1) s0)).nextWsId = some sid :=
        hsid
      simp only [Option.some.injEq] at h3
      omega
  have hfr := fresh_run s0.nextWsId evs2 _ hfresh
  apply stale_message_noop
  intro hws
  exact absurd (hfr.2 _ hws) (lt_irrefl _)

/-- C2: Backoff policy: starting from a state with attempt counter 0, a
current socket and a desired pair (the situation right after a successful
open or a fresh connect), after the n-th abnormal close of a run of
consecutive closes with the reconnect timer firing in between and no
successful open or disconnect, the armed delay is
min(1000 * 2^(n-1), 30000) ms; and any open event resets the attempt
counter to 0 immediately.  The desired pair must be truthy, i.e.
non-empty: with a falsy pair scheduleReconnect bails at its first line
and arms nothing. -/
theorem backoff_policy (s : ClientState) (sid : Nat) (p : String) (n : Nat)
    (hn : 1 ≤ n) (h0 : s.reconnectAttempts = 0) (hw : s.ws = some sid)
    (hp : s.currentPair = some p) (hpt : p ≠ "")
    (ht : s.reconnectTimer = none) :
    delayOf (crashRun n s) = some (min (1000 * 2 ^ (n - 1)) 30000)
    ∧ ∀ (u : ClientState) (sid2 : Nat),
        (step (.wsOpen sid2) u).reconnectAttempts = 0 := by
  constructor
  · obtain ⟨-, -, -, ⟨tid, htmr⟩⟩ := crashRun_spec s sid p hw hp hpt ht n hn
    simp [delayOf, htmr, h0, MAX_RECONNECT_DELAY]
  · intro u sid2
    simp only [step]
    split <;> rfl

/-- C2 witness: from the state right after connect("A") and a successful
open, the 6th consecutive abnormal close arms the capped delay 30000. -/
theorem backoff_policy_witness :
    (1 ≤ 6 ∧ stateOpenA.reconnectAttempts = 0 ∧ stateOpenA.ws = some 0
      ∧ stateOpenA.currentPair = some "A" ∧ "A" ≠ ""
      ∧ stateOpenA.reconnectTimer = none)
    ∧ (delayOf (crashRun 6 stateOpenA)
        = some (min (1000 * 2 ^ (6 - 1)) 30000)
      ∧ ∀ (u : ClientState) (sid2 : Nat),
          (step (.wsOpen sid2) u).reconnectAttempts = 0) :=
  ⟨⟨by decide, by decide, by decide, by decide, by decide, by decide⟩,
    backoff_policy stateOpenA 0 "A" 6 (by decide) (by decide) (by decide)
      (by decide) (by decide) (by decide)⟩

/-- C3: Reconnect suppression: from any state with a pending reconnect
timer, after disconnect() no later event other than a consumer connect can
open a connection: across any connect-free event sequence the WebSocket
allocator never advances, no socket is current, and no timer is pending. -/
theorem reconnect_suppression (s : ClientState) (evs : List Event)
    (hpend : s.reconnectTimer.isSome = true)
    (hnc : ∀ e ∈ evs, e.isConnect = false) :
    (run evs (step .disconnect s)).nextWsId = s.nextWsId
    ∧ (run evs (step .disconnect s)).ws = none
    ∧ (run evs (step .disconnect s)).reconnectTimer = none := by
  obtain ⟨⟨hw, ht, -⟩, hn⟩ :=
    dead_run evs (step .disconnect s) hnc ⟨rfl, rfl, rfl⟩
  exact ⟨hn, hw, ht⟩

/-- C3 witness: after a crash armed a timer, disconnect, then a stale timer
fire, close, open, message and another disconnect open nothing. -/
theorem reconnect_suppression_witness :
    (stateCrashA.reconnectTimer.isSome = true
      ∧ ∀ e ∈ [Event.timerFire 0, Event.wsClose 0, Event.wsOpen 0,
          Event.wsMessage 0 99 Frame.invalid, Event.disconnect],
          e.isConnect = false)
    ∧ ((run [Event.timerFire 0, Event.wsClose 0, Event.wsOpen 0,
          Event.wsMessage 0 99 Frame.invalid, Event.disconnect]
          (step .disconnect stateCrashA)).nextWsId = stateCrashA.nextWsId
      ∧ (run [Event.timerFire 0, Event.wsClose 0, Event.wsOpen 0,
          Event.wsMessage 0 99 Frame.invalid, Event.disconnect]
          (step .disconnect stateCrashA)).ws = none
      ∧ (run [Event.timerFire 0, Event.wsClose 0, Event.wsOpen 0,
          Event.wsMessage 0 99 Frame.invalid, Event.disconnect]
          (step .disconnect stateCrashA)).reconnectTimer = none) :=
  ⟨⟨by decide, by decide⟩,
    reconnect_suppression stateCrashA _ (by decide) (by decide)⟩

/-- C4 counterexample: the claim quantifies over all inbound message
sequences including snapshots, but the snapshot branch stores the trades
payload wholesale without truncation, so a snapshot carrying 51 trades
leaves 51 stored entries. -/
theorem trade_feed_bound_cex :
    50 < (run [Event.connect "A", Event.wsOpen 0,
        Event.wsMessage 0 1 snapFrame51] initState).pub.trades.length := by
  decide

/-- C4 (amended): after every sequence of events from the initial empty
state in which each snapshot message carries at most 50 trades, the stored
trade sequence holds at most 50 entries; and on the current session each
trade message prepends its single trade and truncates to the 50 most
recent, so order is most-recent-first by arrival with the oldest evicted.
(A snapshot whose trades list exceeds 50 is stored wholesale without
truncation, which is the only way the bound can be exceeded.) -/
theorem trade_feed_bound (evs : List Event)
    (h : ∀ e ∈ evs, snapshotBounded e = true) :
    (run evs initState).pub.trades.length ≤ 50
    ∧ ∀ (s : ClientState) (sid now : Nat) (t : TradeJ)
        (tk : Option TickerJ) (ob : Option BookJ)
        (trs : Option (List TradeJ)) (itv : Option String)
        (kl : Option KlineJ), s.ws = some sid →
        (step (.wsMessage sid now
            (.parsed "trade" tk ob (some t) trs itv kl)) s).pub.trades
          = (t :: s.pub.trades).take 50 := by
  constructor
  · have hgen : ∀ (l : List Event) (s : ClientState),
        (∀ e ∈ l, snapshotBounded e = true) → s.pub.trades.length ≤ 50 →
        (run l s).pub.trades.length ≤ 50 := by
      intro l
      induction l with
      | nil => intro s _ hs; exact hs
      | cons e l ih =>
        intro s hl hs
        exact ih (step e s)
          (fun x hx => hl x (List.mem_cons_of_mem e hx))
          (trades_len_step e s (hl e (List.mem_cons_self e l)) hs)
    exact hgen evs initState h (by decide)
  · intro s sid now t tk ob trs itv kl hws
    simp only [step, if_pos hws]
    rw [handleMessage_trade]

/-- C4 witness: a short run with one trade message stays within the bound,
and the prepend-then-truncate shape holds on the current session. -/
theorem trade_feed_bound_witness :
    (∀ e ∈ [Event.connect "A", Event.wsOpen 0,
        Event.wsMessage 0 1
          (Frame.parsed "trade" none none (some exTrade) none none none)],
        snapshotBounded e = true)
    ∧ ((run [Event.connect "A", Event.wsOpen 0,
        Event.wsMessage 0 1
          (Frame.parsed "trade" none none (some exTrade) none none none)]
        initState).pub.trades.length ≤ 50
      ∧ ∀ (s : ClientState) (sid now : Nat) (t : TradeJ)
          (tk : Option TickerJ) (ob : Option BookJ)
          (trs : Option (List TradeJ)) (itv : Option String)
          (kl : Option KlineJ), s.ws = some sid →
          (step (.wsMessage sid now
              (.parsed "trade" tk ob (some t) trs itv kl)) s).pub.trades
            = (t :: s.pub.trades).take 50) :=
  ⟨by decide, trade_feed_bound _ (by decide)⟩

/-- C5: Orderbook throttle on the current session: a first orderbook
message arriving at least 50ms after the last applied update replaces the
stored book and advances the throttle clock to its arrival time; a second
arriving less than 50ms later leaves all of Published State unchanged
(dropped entirely); a second arriving at least 50ms later replaces the book
in turn; and a snapshot message resets the throttle clock to its own
arrival time. -/
theorem orderbook_throttle (s : ClientState) (sid : Nat)
    (hws : s.ws = some sid) (t1 t2 : Nat) (b1 b2 : BookJ)
    (hb1 : b1.bids.isSome = true ∧ b1.asks.isSome = true)
    (hb2 : b2.bids.isSome = true ∧ b2.asks.isSome = true)
    (h1 : s.lastOrderbookMs + 50 ≤ t1) :
    ((step (.wsMessage sid t1 (obFrame b1)) s).pub.orderbook = bookOf b1
      ∧ (step (.wsMessage sid t1 (obFrame b1)) s).lastOrderbookMs = t1)
    ∧ (t2 < t1 + 50 →
        (step (.wsMessage sid t2 (obFrame b2))
            (step (.wsMessage sid t1 (obFrame b1)) s)).pub
          = (step (.wsMessage sid t1 (obFrame b1)) s).pub)
    ∧ (t1 + 50 ≤ t2 →
        (step (.wsMessage sid t2 (obFrame b2))
            (step (.wsMessage sid t1 (obFrame b1)) s)).pub.orderbook
          = bookOf b2)
    ∧ (∀ (now : Nat) (tk : Option TickerJ) (ob : Option BookJ)
        (trs : Option (List TradeJ)),
        (step (.wsMessage sid now
            (.parsed "snapshot" tk ob none trs none
              none)) s).lastOrderbookMs = now) := by
  obtain ⟨hbb1, hba1⟩ := hb1
  obtain ⟨hbb2, hba2⟩ := hb2
  obtain ⟨bs1, hbs1⟩ := Option.isSome_iff_exists.mp hbb1
  obtain ⟨aks1, has1⟩ := Option.isSome_iff_exists.mp hba1
  obtain ⟨bs2, hbs2⟩ := Option.isSome_iff_exists.mp hbb2
  obtain ⟨aks2, has2⟩ := Option.isSome_iff_exists.mp hba2
  have e1 := orderbook_msg_applied s sid hws t1 b1 bs1 aks1 hbs1 has1 h1
  have hw1 : (step (.wsMessage sid t1 (obFrame b1)) s).ws = some sid := by
    rw [e1]
    exact hws
  have hl1 : (step (.wsMessage sid t1 (obFrame b1)) s).lastOrderbookMs
      = t1 := by
    rw [e1]
  refine ⟨⟨?_, hl1⟩, ?_, ?_, ?_⟩
  · rw [e1]
    show StoredBook.mk bs1 aks1 = bookOf b1
    simp [bookOf, hbs1, has1]
  · intro hlt
    exact congrArg ClientState.pub
      (orderbook_msg_throttled (step (.wsMessage sid t1 (obFrame b1)) s)
        sid hw1 t2 b2 (by rw [hl1]; omega))
  · intro hge
    rw [orderbook_msg_applied (step (.wsMessage sid t1 (obFrame b1)) s)
      sid hw1 t2 b2 bs2 aks2 hbs2 has2 (by rw [hl1]; omega)]
    show StoredBook.mk bs2 aks2 = bookOf b2
    simp [bookOf, hbs2, has2]
  · intro now tk ob trs
    simp only [step, if_pos hws]
    rw [handleMessage_snapshot]

/-- C5 witness: from a fresh connection, a book applied at 60ms, a second
dropped at 80ms, applied instead at 110ms, and a snapshot clock reset. -/
theorem orderbook_throttle_witness :
    (stateA.ws = some 0
      ∧ ((BookJ.mk (some [["1", "2"]]) (some [])).bids.isSome = true
        ∧ (BookJ.mk (some [["1", "2"]]) (some [])).asks.isSome = true)
      ∧ ((BookJ.mk (some []) (some [["3", "4"]])).bids.isSome = true
        ∧ (BookJ.mk (some []) (some [["3", "4"]])).asks.isSome = true)
      ∧ stateA.lastOrderbookMs + 50 ≤ 60)
    ∧ (((step (.wsMessage 0 60 (obFrame (BookJ.mk (some [["1", "2"]])
          (some [])))) stateA).pub.orderbook
            = bookOf (BookJ.mk (some [["1", "2"]]) (some []))
        ∧ (step (.wsMessage 0 60 (obFrame (BookJ.mk (some [["1", "2"]])
          (some [])))) stateA).lastOrderbookMs = 60)
      ∧ (80 < 60 + 50 →
          (step (.wsMessage 0 80 (obFrame (BookJ.mk (some [])
              (some [["3", "4"]]))))
            (step (.wsMessage 0 60 (obFrame (BookJ.mk (some [["1", "2"]])
              (some [])))) stateA)).pub
            = (step (.wsMessage 0 60 (obFrame (BookJ.mk (some [["1", "2"]])
              (some [])))) stateA).pub)
      ∧ (60 + 50 ≤ 80 →
          (step (.wsMessage 0 80 (obFrame (BookJ.mk (some [])
              (some [["3", "4"]]))))
            (step (.wsMessage 0 60 (obFrame (BookJ.mk (some [["1", "2"]])
              (some [])))) stateA)).pub.orderbook
            = bookOf (BookJ.mk (some []) (some [["3", "4"]])))
      ∧ (∀ (now : Nat) (tk : Option TickerJ) (ob : Option BookJ)
          (trs : Option (List TradeJ)),
          (step (.wsMessage 0 now
              (.parsed "snapshot" tk ob none trs none
                none)) stateA).lastOrderbookMs = now)) :=
  ⟨⟨by decide, ⟨by decide, by decide⟩, ⟨by decide, by decide⟩, by decide⟩,
    orderbook_throttle stateA 0 (by decide) 60 80
      (BookJ.mk (some [["1", "2"]]) (some []))
      (BookJ.mk (some []) (some [["3", "4"]]))
      ⟨by decide, by decide⟩ ⟨by decide, by decide⟩ (by decide)⟩

/-- C6 counterexample: session 0 is superseded by session 1, a close of the
current session 1 leaves the attempt counter at 1, yet a later open event
of the superseded session 0 resets the counter to 0 - the reset on line 78
of marketStore.ts precedes the identity guard, so a superseded session
event does change internal client state, contrary to the claim. -/
theorem stale_session_inert_cex :
    (run [Event.connect "A", Event.connect "B", Event.wsClose 1]
        initState).ws ≠ some 0
    ∧ (run [Event.connect "A", Event.connect "B", Event.wsClose 1]
        initState).reconnectAttempts = 1
    ∧ (step (.wsOpen 0) (run [Event.connect "A", Event.connect "B",
        Event.wsClose 1] initState)).reconnectAttempts = 0 := by
  decide

/-- C6 (amended): for every superseded connection, close, error and message
events are gated by the identity check and change nothing at all; an open
event likewise leaves Published State, the pending timer, the throttle
clock and every other field unchanged, except that it unconditionally
resets the reconnect-attempt counter to 0 (that reset precedes the
identity check). -/
theorem stale_session_inert (s : ClientState) (sid : Nat)
    (h : s.ws ≠ some sid) (now : Nat) (f : Frame) :
    step (.wsClose sid) s = s
    ∧ step (.wsError sid) s = s
    ∧ step (.wsMessage sid now f) s = s
    ∧ step (.wsOpen sid) s = { s with reconnectAttempts := 0 } := by
  refine ⟨?_, ?_, stale_message_noop s sid now f h, ?_⟩
  · simp only [step, if_neg h]
  · simp only [step, if_neg h]
  · simp only [step]
    rw [if_neg (show ¬
        (({ s with reconnectAttempts := 0 } : ClientState).ws = some sid)
        from h)]

/-- C6 witness: concrete superseded session 0 after connect("A"),
connect("B"). -/
theorem stale_session_inert_witness :
    (stateAB.ws ≠ some 0)
    ∧ (step (.wsClose 0) stateAB = stateAB
      ∧ step (.wsError 0) stateAB = stateAB
      ∧ step (.wsMessage 0 7 Frame.invalid) stateAB = stateAB
      ∧ step (.wsOpen 0) stateAB
          = { stateAB with reconnectAttempts := 0 }) :=
  ⟨by decide, stale_session_inert stateAB 0 (by decide) 7 Frame.invalid⟩

/-- C7: Malformed-payload handling: for every frame that fails to decode
as JSON, decodes with an unrecognized type, or lacks the field the handler
expects for its type, the handler (which never throws: the catch clause
absorbs the one throw point) leaves Published State unchanged, on the
current session and a stale one alike. -/
theorem malformed_payload (s : ClientState) (sid now : Nat) (f : Frame)
    (hf : badFrame f = true) :
    (step (.wsMessage sid now f) s).pub = s.pub := by
  by_cases hws : s.ws = some sid
  · simp only [step, if_pos hws]
    show (handleMessage now f s.pub s.lastOrderbookMs).1 = s.pub
    rcases f with _ | ⟨ty, tk, ob, tr, trs, itv, kl⟩
    · rfl
    · by_cases h1 : ty = "ticker"
      · subst h1
        simp [badFrame] at hf
        subst hf
        rw [handleMessage_ticker]
        simp [tickerTruthy]
      · by_cases h2 : ty = "orderbook"
        · subst h2
          rcases ob with _ | b
          · rw [handleMessage_orderbook_missing]
          · simp [badFrame] at hf
            rw [handleMessage_orderbook]
            split
            · rcases hbid : b.bids with _ | bs
              · simp [hbid]
              · rcases hask : b.asks with _ | aks
                · simp [hbid, hask]
                · rw [hbid, hask] at hf
                  simp at hf
            · rfl
        · by_cases h3 : ty = "trade"
          · subst h3
            simp [badFrame] at hf
            subst hf
            rw [handleMessage_trade_missing]
          · by_cases h4 : ty = "kline"
            · subst h4
              simp [badFrame] at hf
              subst hf
              rw [handleMessage_kline_missing]
            · rw [handleMessage_other now ty tk ob tr trs itv kl s.pub
                s.lastOrderbookMs ?_]
              simp only [badFrame, beq_iff_eq, h1, h2, h3, h4, if_false,
                Bool.not_eq_true'] at hf
              exact hf
  · rw [stale_message_noop s sid now f hws]

/-- C7 witness: on the current session, an orderbook frame whose payload
lacks the asks array (the spread would throw) leaves Published State
unchanged. -/
theorem malformed_payload_witness :
    badFrame (Frame.parsed "orderbook" none
        (some (BookJ.mk (some [["1", "2"]]) none)) none none none none)
      = true
    ∧ (step (.wsMessage 0 100 (Frame.parsed "orderbook" none
        (some (BookJ.mk (some [["1", "2"]]) none)) none none none none))
        stateA).pub = stateA.pub :=
  ⟨by decide, malformed_payload stateA 0 100 _ (by decide)⟩

/-- C8: Ticker guard: on the current session, a ticker message whose
payload ticker is missing or whose last price is empty or missing leaves
all of Published State unchanged; one with a present, non-empty last price
replaces the stored ticker wholesale and changes nothing else. -/
theorem ticker_guard (s : ClientState) (sid : Nat) (hws : s.ws = some sid)
    (now : Nat) (tk : Option TickerJ) (ob : Option BookJ)
    (tr : Option TradeJ) (trs : Option (List TradeJ)) (itv : Option String)
    (kl : Option KlineJ) :
    (tickerTruthy tk = false →
      (step (.wsMessage sid now
          (.parsed "ticker" tk ob tr trs itv kl)) s).pub = s.pub)
    ∧ (tickerTruthy tk = true →
      (step (.wsMessage sid now
          (.parsed "ticker" tk ob tr trs itv kl)) s).pub
        = { s.pub with ticker := tk }) := by
  constructor
  · intro hfalse
    simp only [step, if_pos hws]
    show (handleMessage now _ s.pub s.lastOrderbookMs).1 = s.pub
    rw [handleMessage_ticker, if_neg (by simp [hfalse])]
  · intro htrue
    simp only [step, if_pos hws]
    show (handleMessage now _ s.pub s.lastOrderbookMs).1
      = { s.pub with ticker := tk }
    rw [handleMessage_ticker, if_pos htrue]

/-- C8 witness: a ticker frame with no ticker payload on the current
session. -/
theorem ticker_guard_witness :
    stateA.ws = some 0
    ∧ ((tickerTruthy none = false →
        (step (.wsMessage 0 5 (.parsed "ticker" none none none none none
          none)) stateA).pub = stateA.pub)
      ∧ (tickerTruthy none = true →
        (step (.wsMessage 0 5 (.parsed "ticker" none none none none none
          none)) stateA).pub = { stateA.pub with ticker := none })) :=
  ⟨by decide,
    ticker_guard stateA 0 (by decide) 5 none none none none none none⟩

/-- C9: Disconnect frame effect: for every state, disconnect() clears
latestKline and the connected flag while leaving ticker, orderbook and
trades at their last-known values (in particular a disconnect with no
active session is a no-op on them and never an error, the step function
being total), and across any following connect-free events no new
connection is opened and no timer is pending. -/
theorem disconnect_effect (s : ClientState) (evs : List Event)
    (hnc : ∀ e ∈ evs, e.isConnect = false) :
    (step .disconnect s).pub
      = { s.pub with connected := false, latestKline := none }
    ∧ (run evs (step .disconnect s)).nextWsId = s.nextWsId
    ∧ (run evs (step .disconnect s)).reconnectTimer = none := by
  obtain ⟨⟨-, ht, -⟩, hn⟩ :=
    dead_run evs (step .disconnect s) hnc ⟨rfl, rfl, rfl⟩
  exact ⟨rfl, hn, ht⟩

/-- C9 witness: disconnect from a state with a live session and a stored
kline, followed by a stale close. -/
theorem disconnect_effect_witness :
    (∀ e ∈ [Event.wsClose 0], e.isConnect = false)
    ∧ ((step .disconnect stateKline).pub
        = { stateKline.pub with connected := false, latestKline := none }
      ∧ (run [Event.wsClose 0] (step .disconnect stateKline)).nextWsId
          = stateKline.nextWsId
      ∧ (run [Event.wsClose 0]
          (step .disconnect stateKline)).reconnectTimer = none) :=
  ⟨by decide, disconnect_effect stateKline [Event.wsClose 0] (by decide)⟩

/-- C10: connect() never resets the reconnect-attempt counter, so after
connect(p1), n abnormal closes with timer-driven reconnects and no
successful open, and a direct connect(p2), the first abnormal close of the
p2 session schedules delay min(1000 * 2^n, 30000) ms, which for n at least
1 is not the first-attempt 1000 ms.  Both pairs must be truthy, i.e.
non-empty: with a falsy pair scheduleReconnect bails and no delay is
armed. -/
theorem connect_preserves_attempts (s : ClientState) (p1 p2 : String)
    (n : Nat) (hn : 1 ≤ n) (hpt1 : p1 ≠ "") (hpt2 : p2 ≠ "")
    (h0 : s.reconnectAttempts = 0)
    (ht : s.reconnectTimer = none) :
    (∀ (u : ClientState) (q : String),
        (step (.connect q) u).reconnectAttempts = u.reconnectAttempts)
    ∧ delayOf (crashOnce (step (.connect p2)
        (crashRun n (step (.connect p1) s))))
      = some (min (1000 * 2 ^ n) 30000)
    ∧ min (1000 * 2 ^ n) 30000 ≠ 1000 := by
  refine ⟨fun u q => rfl, ?_, ?_⟩
  · have hws1 : (step (.connect p1) s).ws = some s.nextWsId := rfl
    have hcp1 : (step (.connect p1) s).currentPair = some p1 := rfl
    have ht1 : (step (.connect p1) s).reconnectTimer = none := rfl
    obtain ⟨ha, ⟨sid2, hws2⟩, hpu, -⟩ :=
      crashRun_spec (step (.connect p1) s) s.nextWsId p1 hws1 hcp1 hpt1 ht1
        n hn
    set u := crashRun n (step (.connect p1) s) with hu
    have ha2 : u.reconnectAttempts = n := by
      rw [ha]
      show s.reconnectAttempts + n = n
      rw [h0]
      omega
    have hcw : (connectImpl p2 u).ws = some u.nextWsId := rfl
    have hcp : (connectImpl p2 u).currentPair = some p2 := rfl
    rw [show step (.connect p2) u = connectImpl p2 u from rfl,
      crashOnce_spec (connectImpl p2 u) u.nextWsId p2 hcw hcp hpt2]
    show some (min (1000 * 2 ^ (connectImpl p2 u).reconnectAttempts)
        MAX_RECONNECT_DELAY) = some (min (1000 * 2 ^ n) 30000)
    rw [show (connectImpl p2 u).reconnectAttempts = n from ha2]
    rfl
  · intro heq
    have h2 : (2 : Nat) ≤ 2 ^ n := by
      calc (2 : Nat) = 2 ^ 1 := (pow_one 2).symm
      _ ≤ 2 ^ n := Nat.pow_le_pow_right (by norm_num) hn
    have h3 : 2000 ≤ 1000 * 2 ^ n := by omega
    have h4 : 2000 ≤ min (1000 * 2 ^ n) 30000 := le_min h3 (by norm_num)
    rw [heq] at h4
    omega

/-- C10 witness: two crashes under pair A, then a direct connect to B: the
next close schedules 4000 ms, not 1000 ms. -/
theorem connect_preserves_attempts_witness :
    (1 ≤ 2 ∧ "A" ≠ "" ∧ "B" ≠ "" ∧ initState.reconnectAttempts = 0
      ∧ initState.reconnectTimer = none)
    ∧ ((∀ (u : ClientState) (q : String),
        (step (.connect q) u).reconnectAttempts = u.reconnectAttempts)
      ∧ delayOf (crashOnce (step (.connect "B")
          (crashRun 2 (step (.connect "A") initState))))
        = some (min (1000 * 2 ^ 2) 30000)
      ∧ min (1000 * 2 ^ 2) 30000 ≠ 1000) :=
  ⟨⟨by decide, by decide, by decide, by decide, by decide⟩,
    connect_preserves_attempts initState "A" "B" 2 (by decide) (by decide)
      (by decide) (by decide) (by decide)⟩

end Market
